import Mathlib

set_option maxHeartbeats 0

/-
  Shallow embedding of `src/syntax.rs` of the swift-oxide repository:
  a structural model of Swift syntax (expressions, statements, types,
  declarations).  Rust `Box<T>` is erased, `Vec<T>` becomes `List T`,
  `Option<T>` becomes `Option T`, `i64` becomes `Int`, `f64` becomes
  `Float`, `char` becomes `Char`.  Rust structs that take part in the
  big mutual recursion are rendered as single-constructor inductives
  (Lean structures cannot appear in `mutual` blocks); their field
  accessors are defined right after the block.  Module paths
  (`expression::`, `statement::`, `declaration::`) are kept as dotted
  name prefixes.
-/

/-- A Swift type (`enum SwiftType`, syntax.rs lines 385-410). -/
inductive SwiftType where
  | Integer : SwiftType
  | Float : SwiftType
  | Bool : SwiftType
  | String : SwiftType
  | Character : SwiftType
  | Optional : SwiftType → SwiftType
  | Array : SwiftType → SwiftType
  | Dictionary : SwiftType → SwiftType → SwiftType
  | Tuple : List SwiftType → SwiftType
  | Function : List SwiftType → SwiftType → SwiftType
  | Custom : String → SwiftType

/-- Rust `expression::Identifier` (lines 46-49). -/
structure expression.Identifier where
  name : String

/-- Rust `expression::InfixIdentifier` (lines 51-54). -/
structure expression.InfixIdentifier where
  symbol : String

/-- Rust `expression::UnaryIdentifier` (lines 56-59). -/
structure expression.UnaryIdentifier where
  symbol : String

/-- Rust `expression::Literal` (lines 61-71): exactly six variants. -/
inductive expression.Literal where
  | Integer : Int → expression.Literal
  | Float : Float → expression.Literal
  | Bool : Bool → expression.Literal
  | String : String → expression.Literal
  | Character : Char → expression.Literal
  | Nil : expression.Literal

/-- Rust `expression::KeyPathExpression` (lines 199-204). -/
structure expression.KeyPathExpression where
  type_name : Option String
  path : List String

/-- Rust `expression::ClosureParameter` (lines 129-135). -/
structure expression.ClosureParameter where
  name : String
  type_annotation : Option SwiftType

/-- Rust `statement::BreakStatement` (lines 250-254). -/
structure statement.BreakStatement where
  label : Option String

/-- Rust `statement::ContinueStatement` (lines 256-260). -/
structure statement.ContinueStatement where
  label : Option String

/-- Rust `statement::TypePattern` (lines 327-331). -/
structure statement.TypePattern where
  ty : SwiftType

/-- Rust `statement::LiteralPattern` (lines 333-337). -/
structure statement.LiteralPattern where
  value : expression.Literal

mutual

/-- Rust `statement::Pattern` (lines 314-325). -/
inductive statement.Pattern where
  | Literal : statement.LiteralPattern → statement.Pattern
  | Identifier : expression.Identifier → statement.Pattern
  | Tuple : statement.TuplePattern → statement.Pattern
  | EnumCase : statement.EnumCasePattern → statement.Pattern
  | Wildcard : statement.Pattern
  | TypePattern : statement.TypePattern → statement.Pattern

/-- Rust `statement::TuplePattern` (lines 339-343). -/
inductive statement.TuplePattern where
  | mk : (elements : List statement.Pattern) → statement.TuplePattern

/-- Rust `statement::EnumCasePattern` (lines 345-353). -/
inductive statement.EnumCasePattern where
  | mk : (enum_name : Option String) → (case_name : String) →
      (associated_values : List statement.Pattern) → statement.EnumCasePattern

end

/-- Rust `declaration::AccessControl` (lines 809-816). -/
inductive declaration.AccessControl where
  | Public : declaration.AccessControl
  | Internal : declaration.AccessControl
  | FilePrivate : declaration.AccessControl
  | Private : declaration.AccessControl
deriving DecidableEq

/-- Rust `declaration::TypeParameter` (lines 478-484). -/
structure declaration.TypeParameter where
  name : String
  constraint : Option SwiftType

/-- Rust `declaration::GenericsDeclaration` (lines 468-476). -/
structure declaration.GenericsDeclaration where
  type_parameters : List declaration.TypeParameter

/-- Rust `declaration::FunctionParameter` (lines 486-501). -/
structure declaration.FunctionParameter where
  label : Option String
  internal_name : String
  ty : SwiftType
  default_value : Option String
  is_variadic : Bool
  is_inout : Bool

/-- Rust `declaration::EnumAssociatedValue` (lines 571-578). -/
structure declaration.EnumAssociatedValue where
  label : Option String
  ty : SwiftType

/-- Rust `declaration::PropertyRequirement` (lines 661-668). -/
structure declaration.PropertyRequirement where
  name : String
  ty : SwiftType
  is_read_only : Bool

/-- Rust `declaration::MethodRequirement` (lines 670-678): no body field. -/
structure declaration.MethodRequirement where
  name : String
  parameters : List declaration.FunctionParameter
  return_type : Option SwiftType
  is_mutating : Bool

/-- Rust `declaration::InitializerRequirement` (lines 680-684). -/
structure declaration.InitializerRequirement where
  parameters : List declaration.FunctionParameter

/-- Rust `declaration::ProtocolDeclaration` (lines 651-659). -/
structure declaration.ProtocolDeclaration where
  name : String
  inherited_protocols : List String
  property_requirements : List declaration.PropertyRequirement
  method_requirements : List declaration.MethodRequirement
  initializer_requirements : List declaration.InitializerRequirement

/-- Rust `declaration::TypeAliasDeclaration` (lines 731-737). -/
structure declaration.TypeAliasDeclaration where
  name : String
  target : SwiftType

/-- Rust `declaration::ImportSymbol` (lines 739-750): seven variants. -/
inductive declaration.ImportSymbol where
  | EntireModule : declaration.ImportSymbol
  | Class : String → declaration.ImportSymbol
  | Struct : String → declaration.ImportSymbol
  | Enum : String → declaration.ImportSymbol
  | Protocol : String → declaration.ImportSymbol
  | Function : String → declaration.ImportSymbol
  | Variable : String → declaration.ImportSymbol

/-- Rust `declaration::ImportDeclaration` (lines 752-757). -/
structure declaration.ImportDeclaration where
  module : String
  symbol : declaration.ImportSymbol

mutual

/-- Rust `enum Expression` (lines 2-41): eighteen variants. -/
inductive Expression where
  | SelfExpression : Expression
  | SuperExpression : Expression
  | Identifier : expression.Identifier → Expression
  | Literal : expression.Literal → Expression
  | BinaryExpression : expression.BinaryExpression → Expression
  | UnaryExpression : expression.UnaryExpression → Expression
  | CallExpression : expression.CallExpression → Expression
  | Closure : expression.Closure → Expression
  | Subscript : expression.SubscriptExpression → Expression
  | Conditional : expression.InlineConditionalExpression → Expression
  | Tuple : expression.TupleExpression → Expression
  | Array : expression.ArrayExpression → Expression
  | Dictionary : expression.DictionaryExpression → Expression
  | MemberAccess : expression.MemberAccessExpression → Expression
  | TypeCasting : expression.TypeCastingExpression → Expression
  | PatternMatch : expression.PatternMatchExpression → Expression
  | KeyPath : expression.KeyPathExpression → Expression
  | Assignment : expression.AssignmentExpression → Expression

/-- Rust `expression::BinaryExpression` (lines 73-79). -/
inductive expression.BinaryExpression where
  | mk : (left : Expression) → (operator : expression.InfixIdentifier) →
      (right : Expression) → expression.BinaryExpression

/-- Rust `expression::UnaryExpression` (lines 81-86). -/
inductive expression.UnaryExpression where
  | mk : (operator : expression.UnaryIdentifier) → (operand : Expression) →
      expression.UnaryExpression

/-- Rust `expression::CallExpression` (lines 88-98): `arguments` excludes
trailing closures; `trailing_closures` is a separate field. -/
inductive expression.CallExpression where
  | mk : (callee : Expression) → (arguments : List expression.Argument) →
      (generic_type_arguments : Option (List SwiftType)) →
      (trailing_closures : List expression.TrailingClosure) →
      expression.CallExpression

/-- Rust `expression::TrailingClosure` (lines 100-106). -/
inductive expression.TrailingClosure where
  | mk : (label : Option String) → (closure : Expression) →
      expression.TrailingClosure

/-- Rust `expression::Argument` (lines 108-118). -/
inductive expression.Argument where
  | mk : (label : Option String) → (value : Expression) →
      (is_variadic : Bool) → (is_inout : Bool) → expression.Argument

/-- Rust `expression::Closure` (lines 121-127): note `body` is a plain
`Vec<Statement>`, not a `StatementSequence`. -/
inductive expression.Closure where
  | mk : (parameters : List expression.ClosureParameter) →
      (return_type : Option SwiftType) → (is_escaping : Bool) →
      (body : List Statement) → expression.Closure

/-- Rust `expression::AssignmentExpression` (lines 138-143). -/
inductive expression.AssignmentExpression where
  | mk : (target : Expression) → (value : Expression) →
      expression.AssignmentExpression

/-- Rust `expression::SubscriptExpression` (lines 145-150). -/
inductive expression.SubscriptExpression where
  | mk : (target : Expression) → (index : Expression) →
      expression.SubscriptExpression

/-- Rust `expression::InlineConditionalExpression` (lines 152-158). -/
inductive expression.InlineConditionalExpression where
  | mk : (condition : Expression) → (true_expression : Expression) →
      (false_expression : Expression) → expression.InlineConditionalExpression

/-- Rust `expression::TupleExpression` (lines 160-164). -/
inductive expression.TupleExpression where
  | mk : (elements : List Expression) → expression.TupleExpression

/-- Rust `expression::ArrayExpression` (lines 166-170). -/
inductive expression.ArrayExpression where
  | mk : (elements : List Expression) → expression.ArrayExpression

/-- Rust `expression::DictionaryExpression` (lines 172-176). -/
inductive expression.DictionaryExpression where
  | mk : (elements : List (Expression × Expression)) →
      expression.DictionaryExpression

/-- Rust `expression::MemberAccessExpression` (lines 178-183). -/
inductive expression.MemberAccessExpression where
  | mk : (target : Expression) → (member : String) →
      expression.MemberAccessExpression

/-- Rust `expression::TypeCastingExpression` (lines 185-190). -/
inductive expression.TypeCastingExpression where
  | mk : (expr : Expression) → (target_type : SwiftType) →
      expression.TypeCastingExpression

/-- Rust `expression::PatternMatchExpression` (lines 192-197). -/
inductive expression.PatternMatchExpression where
  | mk : (pattern : Expression) → (expr : Expression) →
      expression.PatternMatchExpression

/-- Rust `enum Statement` (lines 209-240): fourteen variants. -/
inductive Statement where
  | Break : statement.BreakStatement → Statement
  | Continue : statement.ContinueStatement → Statement
  | Expression : Expression → Statement
  | Declaration : Declaration → Statement
  | Return : statement.ReturnStatement → Statement
  | If : statement.IfStatement → Statement
  | ForLoop : statement.ForLoopStatement → Statement
  | WhileLoop : statement.WhileLoopStatement → Statement
  | RepeatWhileLoop : statement.RepeatWhileLoopStatement → Statement
  | Switch : statement.SwitchStatement → Statement
  | Guard : statement.GuardStatement → Statement
  | Throw : statement.ThrowStatement → Statement
  | DoCatch : statement.DoCatchStatement → Statement
  | Assignment : statement.AssignmentStatement → Statement

/-- Rust `struct StatementSequence(Vec<Statement>)` (lines 243-245). -/
inductive StatementSequence where
  | mk : (statements : List Statement) → StatementSequence

/-- Rust `statement::ReturnStatement` (lines 262-266). -/
inductive statement.ReturnStatement where
  | mk : (expr : Option Expression) → statement.ReturnStatement

/-- Rust `statement::IfStatement` (lines 268-274). -/
inductive statement.IfStatement where
  | mk : (condition : Expression) → (body : StatementSequence) →
      (else_body : Option StatementSequence) → statement.IfStatement

/-- Rust `statement::ForLoopStatement` (lines 276-282): the `range` field
is exactly a pair of endpoint expressions. -/
inductive statement.ForLoopStatement where
  | mk : (loop_variable : String) → (range : Expression × Expression) →
      (body : StatementSequence) → statement.ForLoopStatement

/-- Rust `statement::WhileLoopStatement` (lines 284-289). -/
inductive statement.WhileLoopStatement where
  | mk : (condition : Expression) → (body : StatementSequence) →
      statement.WhileLoopStatement

/-- Rust `statement::RepeatWhileLoopStatement` (lines 291-296). -/
inductive statement.RepeatWhileLoopStatement where
  | mk : (body : StatementSequence) → (condition : Expression) →
      statement.RepeatWhileLoopStatement

/-- Rust `statement::SwitchStatement` (lines 298-304). -/
inductive statement.SwitchStatement where
  | mk : (expr : Expression) → (cases : List statement.Case) →
      (default_case : Option StatementSequence) → statement.SwitchStatement

/-- Rust `statement::Case` (lines 306-312). -/
inductive statement.Case where
  | mk : (patterns : List statement.Pattern) →
      (guard_expression : Option Expression) → (body : StatementSequence) →
      statement.Case

/-- Rust `statement::GuardStatement` (lines 355-360). -/
inductive statement.GuardStatement where
  | mk : (condition : Expression) → (body : StatementSequence) →
      statement.GuardStatement

/-- Rust `statement::ThrowStatement` (lines 362-366). -/
inductive statement.ThrowStatement where
  | mk : (expr : Expression) → statement.ThrowStatement

/-- Rust `statement::DoCatchStatement` (lines 368-373): `body` is a
`StatementSequence` but `catch_body` is a plain `Vec<Statement>`. -/
inductive statement.DoCatchStatement where
  | mk : (body : StatementSequence) → (catch_body : List Statement) →
      statement.DoCatchStatement

/-- Rust `statement::AssignmentStatement` (lines 375-381). -/
inductive statement.AssignmentStatement where
  | mk : (target : Expression) → (value : Expression) →
      statement.AssignmentStatement

/-- Rust `enum Declaration` (lines 412-439): twelve variants. -/
inductive Declaration where
  | Function : declaration.FunDeclaration → Declaration
  | Var : declaration.VarDeclaration → Declaration
  | Let : declaration.LetDeclaration → Declaration
  | Struct : declaration.StructDeclaration → Declaration
  | Enum : declaration.EnumDeclaration → Declaration
  | Class : declaration.ClassDeclaration → Declaration
  | Protocol : declaration.ProtocolDeclaration → Declaration
  | Extension : declaration.ExtensionDeclaration → Declaration
  | TypeAlias : declaration.TypeAliasDeclaration → Declaration
  | Import : declaration.ImportDeclaration → Declaration
  | Initializer : declaration.InitializerDeclaration → Declaration
  | Deinitializer : declaration.DeinitializerDeclaration → Declaration

/-- Rust `declaration::FunDeclaration` (lines 455-464): `body` is an
`Option<StatementSequence>`. -/
inductive declaration.FunDeclaration where
  | mk : (name : String) → (generics : Option declaration.GenericsDeclaration) →
      (parameters : List declaration.FunctionParameter) →
      (return_type : Option SwiftType) → (is_throwing : Bool) →
      (access_control : declaration.AccessControl) →
      (body : Option StatementSequence) → declaration.FunDeclaration

/-- Rust `declaration::VarDeclaration` (lines 768-774). -/
inductive declaration.VarDeclaration where
  | mk : (name : String) → (ty : Option SwiftType) →
      (initial_value : Option Expression) → declaration.VarDeclaration

/-- Rust `declaration::LetDeclaration` (lines 760-766). -/
inductive declaration.LetDeclaration where
  | mk : (name : String) → (ty : Option SwiftType) →
      (initial_value : Option Expression) → declaration.LetDeclaration

/-- Rust `declaration::StructDeclaration` (lines 521-533). -/
inductive declaration.StructDeclaration where
  | mk : (name : String) → (generics : Option declaration.GenericsDeclaration) →
      (conformances : List String) →
      (properties : List declaration.VariablePropertyDeclaration) →
      (methods : List declaration.FunDeclaration) →
      (initializers : List declaration.InitializerDeclaration) →
      declaration.StructDeclaration

/-- Rust `declaration::EnumDeclaration` (lines 552-559). -/
inductive declaration.EnumDeclaration where
  | mk : (name : String) → (generics : Option declaration.GenericsDeclaration) →
      (cases : List declaration.EnumCase) → (raw_type : Option SwiftType) →
      declaration.EnumDeclaration

/-- Rust `declaration::EnumCase` (lines 561-569). -/
inductive declaration.EnumCase where
  | mk : (name : String) →
      (associated_values : List declaration.EnumAssociatedValue) →
      (raw_value : Option Expression) → declaration.EnumCase

/-- Rust `declaration::ClassDeclaration` (lines 613-629). -/
inductive declaration.ClassDeclaration where
  | mk : (name : String) → (generics : Option declaration.GenericsDeclaration) →
      (superclass : Option String) → (conformances : List String) →
      (properties : List declaration.VariablePropertyDeclaration) →
      (methods : List declaration.FunDeclaration) →
      (initializers : List declaration.InitializerDeclaration) →
      (deinitializer : Option declaration.DeinitializerDeclaration) →
      declaration.ClassDeclaration

/-- Rust `declaration::ExtensionDeclaration` (lines 709-721). -/
inductive declaration.ExtensionDeclaration where
  | mk : (type_name : String) → (conformances : List String) →
      (properties : List declaration.VarDeclaration) →
      (methods : List declaration.FunDeclaration) →
      (initializers : List declaration.InitializerDeclaration) →
      declaration.ExtensionDeclaration

/-- Rust `declaration::InitializerDeclaration` (lines 788-800): `body` is a
mandatory `StatementSequence`. -/
inductive declaration.InitializerDeclaration where
  | mk : (generics : Option declaration.GenericsDeclaration) →
      (parameters : List declaration.FunctionParameter) →
      (body : StatementSequence) → (is_failable : Bool) →
      (is_convenience : Bool) → (access_control : declaration.AccessControl) →
      declaration.InitializerDeclaration

/-- Rust `declaration::DeinitializerDeclaration` (lines 803-807). -/
inductive declaration.DeinitializerDeclaration where
  | mk : (body : StatementSequence) → declaration.DeinitializerDeclaration

/-- Rust `declaration::VariablePropertyDeclaration` (lines 776-786). -/
inductive declaration.VariablePropertyDeclaration where
  | mk : (name : String) → (ty : SwiftType) →
      (getter : declaration.FunDeclaration) →
      (setter : Option declaration.FunDeclaration) →
      declaration.VariablePropertyDeclaration

end

/- ## Field accessors for the mutually recursive single-constructor types -/

def StatementSequence.statements : StatementSequence → List Statement
  | .mk l => l

def expression.CallExpression.callee : expression.CallExpression → Expression
  | .mk c _ _ _ => c

def expression.CallExpression.arguments :
    expression.CallExpression → List expression.Argument
  | .mk _ a _ _ => a

def expression.CallExpression.generic_type_arguments :
    expression.CallExpression → Option (List SwiftType)
  | .mk _ _ g _ => g

def expression.CallExpression.trailing_closures :
    expression.CallExpression → List expression.TrailingClosure
  | .mk _ _ _ t => t

def expression.CallExpression.withArguments :
    expression.CallExpression → List expression.Argument →
      expression.CallExpression
  | .mk c _ g t, args => .mk c args g t

def expression.CallExpression.withTrailingClosures :
    expression.CallExpression → List expression.TrailingClosure →
      expression.CallExpression
  | .mk c a g _, tcs => .mk c a g tcs

def expression.TrailingClosure.label : expression.TrailingClosure → Option String
  | .mk l _ => l

def expression.TrailingClosure.closure : expression.TrailingClosure → Expression
  | .mk _ c => c

def expression.Closure.body : expression.Closure → List Statement
  | .mk _ _ _ b => b

def expression.AssignmentExpression.target :
    expression.AssignmentExpression → Expression
  | .mk t _ => t

def expression.AssignmentExpression.value :
    expression.AssignmentExpression → Expression
  | .mk _ v => v

def statement.IfStatement.condition : statement.IfStatement → Expression
  | .mk c _ _ => c

def statement.IfStatement.body : statement.IfStatement → StatementSequence
  | .mk _ b _ => b

def statement.IfStatement.else_body :
    statement.IfStatement → Option StatementSequence
  | .mk _ _ e => e

def statement.ForLoopStatement.«variable» : statement.ForLoopStatement → String
  | .mk v _ _ => v

def statement.ForLoopStatement.range :
    statement.ForLoopStatement → Expression × Expression
  | .mk _ r _ => r

def statement.ForLoopStatement.body :
    statement.ForLoopStatement → StatementSequence
  | .mk _ _ b => b

def statement.WhileLoopStatement.body :
    statement.WhileLoopStatement → StatementSequence
  | .mk _ b => b

def statement.RepeatWhileLoopStatement.body :
    statement.RepeatWhileLoopStatement → StatementSequence
  | .mk b _ => b

def statement.DoCatchStatement.body : statement.DoCatchStatement → StatementSequence
  | .mk b _ => b

def statement.DoCatchStatement.catch_body :
    statement.DoCatchStatement → List Statement
  | .mk _ c => c

def statement.AssignmentStatement.target :
    statement.AssignmentStatement → Expression
  | .mk t _ => t

def statement.AssignmentStatement.value :
    statement.AssignmentStatement → Expression
  | .mk _ v => v

def declaration.FunDeclaration.name : declaration.FunDeclaration → String
  | .mk n _ _ _ _ _ _ => n

def declaration.FunDeclaration.generics :
    declaration.FunDeclaration → Option declaration.GenericsDeclaration
  | .mk _ g _ _ _ _ _ => g

def declaration.FunDeclaration.parameters :
    declaration.FunDeclaration → List declaration.FunctionParameter
  | .mk _ _ p _ _ _ _ => p

def declaration.FunDeclaration.return_type :
    declaration.FunDeclaration → Option SwiftType
  | .mk _ _ _ r _ _ _ => r

def declaration.FunDeclaration.is_throwing : declaration.FunDeclaration → Bool
  | .mk _ _ _ _ t _ _ => t

def declaration.FunDeclaration.access_control :
    declaration.FunDeclaration → declaration.AccessControl
  | .mk _ _ _ _ _ a _ => a

def declaration.FunDeclaration.body :
    declaration.FunDeclaration → Option StatementSequence
  | .mk _ _ _ _ _ _ b => b

def declaration.FunDeclaration.hasBody (d : declaration.FunDeclaration) : Bool :=
  (declaration.FunDeclaration.body d).isSome

def declaration.InitializerDeclaration.access_control :
    declaration.InitializerDeclaration → declaration.AccessControl
  | .mk _ _ _ _ _ a => a

def declaration.InitializerDeclaration.body :
    declaration.InitializerDeclaration → StatementSequence
  | .mk _ _ b _ _ _ => b

def declaration.VarDeclaration.name : declaration.VarDeclaration → String
  | .mk n _ _ => n

def declaration.VarDeclaration.ty : declaration.VarDeclaration → Option SwiftType
  | .mk _ t _ => t

def declaration.VarDeclaration.initial_value :
    declaration.VarDeclaration → Option Expression
  | .mk _ _ v => v

def declaration.LetDeclaration.name : declaration.LetDeclaration → String
  | .mk n _ _ => n

def declaration.LetDeclaration.ty : declaration.LetDeclaration → Option SwiftType
  | .mk _ t _ => t

def declaration.LetDeclaration.initial_value :
    declaration.LetDeclaration → Option Expression
  | .mk _ _ v => v

def declaration.StructDeclaration.name : declaration.StructDeclaration → String
  | .mk n _ _ _ _ _ => n

def declaration.StructDeclaration.generics :
    declaration.StructDeclaration → Option declaration.GenericsDeclaration
  | .mk _ g _ _ _ _ => g

def declaration.StructDeclaration.conformances :
    declaration.StructDeclaration → List String
  | .mk _ _ c _ _ _ => c

def declaration.StructDeclaration.properties :
    declaration.StructDeclaration → List declaration.VariablePropertyDeclaration
  | .mk _ _ _ p _ _ => p

def declaration.StructDeclaration.methods :
    declaration.StructDeclaration → List declaration.FunDeclaration
  | .mk _ _ _ _ m _ => m

def declaration.StructDeclaration.initializers :
    declaration.StructDeclaration → List declaration.InitializerDeclaration
  | .mk _ _ _ _ _ i => i

def declaration.EnumDeclaration.name : declaration.EnumDeclaration → String
  | .mk n _ _ _ => n

def declaration.EnumDeclaration.generics :
    declaration.EnumDeclaration → Option declaration.GenericsDeclaration
  | .mk _ g _ _ => g

def declaration.EnumDeclaration.cases :
    declaration.EnumDeclaration → List declaration.EnumCase
  | .mk _ _ c _ => c

def declaration.EnumDeclaration.raw_type :
    declaration.EnumDeclaration → Option SwiftType
  | .mk _ _ _ r => r

def declaration.ClassDeclaration.name : declaration.ClassDeclaration → String
  | .mk n _ _ _ _ _ _ _ => n

def declaration.ClassDeclaration.generics :
    declaration.ClassDeclaration → Option declaration.GenericsDeclaration
  | .mk _ g _ _ _ _ _ _ => g

def declaration.ClassDeclaration.superclass :
    declaration.ClassDeclaration → Option String
  | .mk _ _ s _ _ _ _ _ => s

def declaration.ClassDeclaration.conformances :
    declaration.ClassDeclaration → List String
  | .mk _ _ _ c _ _ _ _ => c

def declaration.ClassDeclaration.properties :
    declaration.ClassDeclaration → List declaration.VariablePropertyDeclaration
  | .mk _ _ _ _ p _ _ _ => p

def declaration.ClassDeclaration.methods :
    declaration.ClassDeclaration → List declaration.FunDeclaration
  | .mk _ _ _ _ _ m _ _ => m

def declaration.ClassDeclaration.initializers :
    declaration.ClassDeclaration → List declaration.InitializerDeclaration
  | .mk _ _ _ _ _ _ i _ => i

def declaration.ClassDeclaration.deinitializer :
    declaration.ClassDeclaration → Option declaration.DeinitializerDeclaration
  | .mk _ _ _ _ _ _ _ d => d

def declaration.ExtensionDeclaration.type_name :
    declaration.ExtensionDeclaration → String
  | .mk t _ _ _ _ => t

def declaration.ExtensionDeclaration.conformances :
    declaration.ExtensionDeclaration → List String
  | .mk _ c _ _ _ => c

def declaration.ExtensionDeclaration.properties :
    declaration.ExtensionDeclaration → List declaration.VarDeclaration
  | .mk _ _ p _ _ => p

def declaration.ExtensionDeclaration.methods :
    declaration.ExtensionDeclaration → List declaration.FunDeclaration
  | .mk _ _ _ m _ => m

def declaration.ExtensionDeclaration.initializers :
    declaration.ExtensionDeclaration → List declaration.InitializerDeclaration
  | .mk _ _ _ _ i => i

def declaration.DeinitializerDeclaration.body :
    declaration.DeinitializerDeclaration → StatementSequence
  | .mk b => b

/- ## Literal discriminators -/

def expression.Literal.isInteger (l : expression.Literal) :=
  match l with
  | .Integer _ => true
  | _ => false

def expression.Literal.isFloat (l : expression.Literal) :=
  match l with
  | .Float _ => true
  | _ => false

def expression.Literal.isBool (l : expression.Literal) :=
  match l with
  | .Bool _ => true
  | _ => false

def expression.Literal.isString (l : expression.Literal) :=
  match l with
  | .String _ => true
  | _ => false

def expression.Literal.isCharacter (l : expression.Literal) :=
  match l with
  | .Character _ => true
  | _ => false

def expression.Literal.isNil (l : expression.Literal) :=
  match l with
  | .Nil => true
  | _ => false

/- ## ImportSymbol discriminators -/

def declaration.ImportSymbol.isEntireModule : declaration.ImportSymbol → Bool
  | .EntireModule => true
  | _ => false

def declaration.ImportSymbol.isNamedSymbol : declaration.ImportSymbol → Bool
  | .EntireModule => false
  | _ => true

def declaration.ImportSymbol.symbolName : declaration.ImportSymbol → Option String
  | .EntireModule => none
  | .Class s => some s
  | .Struct s => some s
  | .Enum s => some s
  | .Protocol s => some s
  | .Function s => some s
  | .Variable s => some s

/- ## Sizes: total depth-first node counts, by recursion over the tree -/

mutual

def swiftTypeSize : SwiftType → Nat
  | .Integer | .Float | .Bool | .String | .Character => 1
  | .Optional t => 1 + swiftTypeSize t
  | .Array t => 1 + swiftTypeSize t
  | .Dictionary k v => 1 + swiftTypeSize k + swiftTypeSize v
  | .Tuple ts => 1 + swiftTypeListSize ts
  | .Function ps r => 1 + swiftTypeListSize ps + swiftTypeSize r
  | .Custom _ => 1

def swiftTypeListSize : List SwiftType → Nat
  | [] => 0
  | t :: ts => swiftTypeSize t + swiftTypeListSize ts

end

mutual

def exprSize : Expression → Nat
  | .SelfExpression => 1
  | .SuperExpression => 1
  | .Identifier _ => 1
  | .Literal _ => 1
  | .BinaryExpression (.mk l _ r) => 1 + exprSize l + exprSize r
  | .UnaryExpression (.mk _ e) => 1 + exprSize e
  | .CallExpression (.mk c args _ tcs) =>
      1 + exprSize c + argListSize args + trailingListSize tcs
  | .Closure (.mk _ _ _ b) => 1 + stmtListSize b
  | .Subscript (.mk t i) => 1 + exprSize t + exprSize i
  | .Conditional (.mk c t f) => 1 + exprSize c + exprSize t + exprSize f
  | .Tuple (.mk es) => 1 + exprListSize es
  | .Array (.mk es) => 1 + exprListSize es
  | .Dictionary (.mk es) => 1 + exprPairListSize es
  | .MemberAccess (.mk t _) => 1 + exprSize t
  | .TypeCasting (.mk e ty) => 1 + exprSize e + swiftTypeSize ty
  | .PatternMatch (.mk p e) => 1 + exprSize p + exprSize e
  | .KeyPath _ => 1
  | .Assignment (.mk t v) => 1 + exprSize t + exprSize v

def exprListSize : List Expression → Nat
  | [] => 0
  | e :: es => exprSize e + exprListSize es

def exprPairListSize : List (Expression × Expression) → Nat
  | [] => 0
  | (a, b) :: es => exprSize a + exprSize b + exprPairListSize es

def optExprSize : Option Expression → Nat
  | none => 0
  | some e => exprSize e

def argListSize : List expression.Argument → Nat
  | [] => 0
  | .mk _ v _ _ :: rest => exprSize v + argListSize rest

def trailingListSize : List expression.TrailingClosure → Nat
  | [] => 0
  | .mk _ c :: rest => exprSize c + trailingListSize rest

def stmtSize : Statement → Nat
  | .Break _ => 1
  | .Continue _ => 1
  | .Expression e => 1 + exprSize e
  | .Declaration d => 1 + declSize d
  | .Return (.mk e) => 1 + optExprSize e
  | .If (.mk c b e) => 1 + exprSize c + seqSize b + optSeqSize e
  | .ForLoop (.mk _ (a, b) body) => 1 + exprSize a + exprSize b + seqSize body
  | .WhileLoop (.mk c b) => 1 + exprSize c + seqSize b
  | .RepeatWhileLoop (.mk b c) => 1 + seqSize b + exprSize c
  | .Switch (.mk e cs d) => 1 + exprSize e + caseListSize cs + optSeqSize d
  | .Guard (.mk c b) => 1 + exprSize c + seqSize b
  | .Throw (.mk e) => 1 + exprSize e
  | .DoCatch (.mk b cb) => 1 + seqSize b + stmtListSize cb
  | .Assignment (.mk t v) => 1 + exprSize t + exprSize v

def stmtListSize : List Statement → Nat
  | [] => 0
  | s :: ss => stmtSize s + stmtListSize ss

def seqSize : StatementSequence → Nat
  | .mk ss => 1 + stmtListSize ss

def optSeqSize : Option StatementSequence → Nat
  | none => 0
  | some s => seqSize s

def caseListSize : List statement.Case → Nat
  | [] => 0
  | .mk _ g b :: rest => optExprSize g + seqSize b + caseListSize rest

def declSize : Declaration → Nat
  | .Function f => 1 + funDeclSize f
  | .Var (.mk _ _ v) => 1 + optExprSize v
  | .Let (.mk _ _ v) => 1 + optExprSize v
  | .Struct (.mk _ _ _ ps ms is) =>
      1 + varPropListSize ps + funDeclListSize ms + initDeclListSize is
  | .Enum (.mk _ _ cs _) => 1 + enumCaseListSize cs
  | .Class (.mk _ _ _ _ ps ms is d) =>
      1 + varPropListSize ps + funDeclListSize ms + initDeclListSize is +
        optDeinitSize d
  | .Protocol _ => 1
  | .Extension (.mk _ _ ps ms is) =>
      1 + varDeclListSize ps + funDeclListSize ms + initDeclListSize is
  | .TypeAlias _ => 1
  | .Import _ => 1
  | .Initializer i => 1 + initDeclSize i
  | .Deinitializer (.mk b) => 1 + seqSize b

def funDeclSize : declaration.FunDeclaration → Nat
  | .mk _ _ _ _ _ _ b => 1 + optSeqSize b

def funDeclListSize : List declaration.FunDeclaration → Nat
  | [] => 0
  | f :: fs => funDeclSize f + funDeclListSize fs

def optFunDeclSize : Option declaration.FunDeclaration → Nat
  | none => 0
  | some f => funDeclSize f

def initDeclSize : declaration.InitializerDeclaration → Nat
  | .mk _ _ b _ _ _ => 1 + seqSize b

def initDeclListSize : List declaration.InitializerDeclaration → Nat
  | [] => 0
  | i :: is => initDeclSize i + initDeclListSize is

def varPropListSize : List declaration.VariablePropertyDeclaration → Nat
  | [] => 0
  | .mk _ _ g s :: rest => funDeclSize g + optFunDeclSize s + varPropListSize rest

def enumCaseListSize : List declaration.EnumCase → Nat
  | [] => 0
  | .mk _ _ r :: rest => optExprSize r + enumCaseListSize rest

def varDeclListSize : List declaration.VarDeclaration → Nat
  | [] => 0
  | .mk _ _ v :: rest => optExprSize v + varDeclListSize rest

def optDeinitSize : Option declaration.DeinitializerDeclaration → Nat
  | none => 0
  | some (.mk b) => seqSize b + 1

end

/- ## Nested unary tower -/

def nestUnary : Nat → Expression
  | 0 => .Identifier (.mk "x")
  | n + 1 => .UnaryExpression (.mk (.mk "-") (nestUnary n))

/- ## Block body type table for C2 -/

inductive BodyTy where
  | statementSequence : BodyTy
  | statementList : BodyTy
deriving DecidableEq, BEq

def blockBodyTypes : List (String × BodyTy) :=
  [("IfStatement.body", BodyTy.statementSequence),
   ("IfStatement.else_body", BodyTy.statementSequence),
   ("ForLoopStatement.body", BodyTy.statementSequence),
   ("WhileLoopStatement.body", BodyTy.statementSequence),
   ("RepeatWhileLoopStatement.body", BodyTy.statementSequence),
   ("Closure.body", BodyTy.statementList),
   ("DoCatchStatement.catch_body", BodyTy.statementList)]

/- ## Claim theorems -/

/-- C1: FunDeclaration.body is an optional statement sequence (a value with
body = none is constructible, denoting a protocol requirement with no
implementation, and one with body = some ss as well), whereas
InitializerDeclaration.body is mandatory: every InitializerDeclaration value
carries a StatementSequence body. -/
theorem C1_fun_body_optional_init_body_mandatory :
    (∃ d : declaration.FunDeclaration, declaration.FunDeclaration.body d = none) ∧
    (∃ d : declaration.FunDeclaration, ∃ ss : StatementSequence,
      declaration.FunDeclaration.body d = some ss) ∧
    (∀ d : declaration.InitializerDeclaration, ∃ l : List Statement,
      declaration.InitializerDeclaration.body d = StatementSequence.mk l) := by
  refine ⟨⟨.mk "f" none [] none false .Internal none, rfl⟩,
    ⟨.mk "f" none [] none false .Internal (some (.mk [])), .mk [], rfl⟩, ?_⟩
  intro d
  cases d with
  | mk g p b f c a => cases b with | mk l => exact ⟨l, rfl⟩

/-- C2 counterexample: the claim that every block body in the model has type
StatementSequence is false at the Closure.body field, whose declared type in
the source (syntax.rs line 126) is a plain Vec of Statement, as recorded by
the blockBodyTypes table; hence not all listed block bodies are
StatementSequence. -/
theorem C2_counterexample :
    blockBodyTypes.lookup "Closure.body" = some BodyTy.statementList ∧
    (blockBodyTypes.all fun p => p.2 == BodyTy.statementSequence) = false := by
  decide

/-- C2 amended: the if-arm and else-arm of IfStatement and the bodies of
ForLoop, While and RepeatWhile loops are StatementSequence values, but the
body of a Closure and the catch body of DoCatchStatement are plain lists of
Statement, not StatementSequence. -/
theorem C2_block_bodies_amended :
    (∀ i : statement.IfStatement, ∃ l : List Statement,
      statement.IfStatement.body i = StatementSequence.mk l) ∧
    (∀ i : statement.IfStatement, statement.IfStatement.else_body i = none ∨
      ∃ l : List Statement,
        statement.IfStatement.else_body i = some (StatementSequence.mk l)) ∧
    (∀ f : statement.ForLoopStatement, ∃ l : List Statement,
      statement.ForLoopStatement.body f = StatementSequence.mk l) ∧
    (∀ w : statement.WhileLoopStatement, ∃ l : List Statement,
      statement.WhileLoopStatement.body w = StatementSequence.mk l) ∧
    (∀ r : statement.RepeatWhileLoopStatement, ∃ l : List Statement,
      statement.RepeatWhileLoopStatement.body r = StatementSequence.mk l) ∧
    (∀ c : expression.Closure, ∃ l : List Statement,
      expression.Closure.body c = l) ∧
    (∀ d : statement.DoCatchStatement, ∃ l : List Statement,
      statement.DoCatchStatement.catch_body d = l) ∧
    blockBodyTypes.lookup "Closure.body" = some BodyTy.statementList ∧
    blockBodyTypes.lookup "DoCatchStatement.catch_body" =
      some BodyTy.statementList := by
  refine ⟨?_, ?_, ?_, ?_, ?_, ?_, ?_, by decide, by decide⟩
  · intro i; cases i with | mk c b e => cases b with | mk l => exact ⟨l, rfl⟩
  · intro i
    cases i with
    | mk c b e =>
      cases e with
      | none => exact Or.inl rfl
      | some s => cases s with | mk l => exact Or.inr ⟨l, rfl⟩
  · intro f; cases f with | mk v r b => cases b with | mk l => exact ⟨l, rfl⟩
  · intro w; cases w with | mk c b => cases b with | mk l => exact ⟨l, rfl⟩
  · intro r; cases r with | mk b c => cases b with | mk l => exact ⟨l, rfl⟩
  · intro c; cases c with | mk p r e b => exact ⟨b, rfl⟩
  · intro d; cases d with | mk b cb => exact ⟨cb, rfl⟩

/-- C3: every Literal value is exactly one of the six kinds Integer, Float,
Bool, String, Character, Nil: for each value exactly one of the six
discriminators is true, so no value holds two kinds simultaneously and no
seventh kind exists. -/
theorem C3_literal_exactly_one_kind :
    ∀ l : expression.Literal,
      (expression.Literal.isInteger l).toNat + (expression.Literal.isFloat l).toNat +
      (expression.Literal.isBool l).toNat + (expression.Literal.isString l).toNat +
      (expression.Literal.isCharacter l).toNat +
      (expression.Literal.isNil l).toNat = 1 := by
  intro l
  cases l <;> rfl

/-- C4: for every ImportDeclaration, the symbol field is exactly one
ImportSymbol variant: EntireModule carries no symbol name, any named variant
carries one and is not EntireModule, and the two possibilities are mutually
exclusive and exhaustive by construction. -/
theorem C4_import_symbol_mutually_exclusive :
    ∀ d : declaration.ImportDeclaration,
      (declaration.ImportSymbol.isEntireModule d.symbol &&
        declaration.ImportSymbol.isNamedSymbol d.symbol) = false ∧
      (declaration.ImportSymbol.isEntireModule d.symbol ||
        declaration.ImportSymbol.isNamedSymbol d.symbol) = true ∧
      (declaration.ImportSymbol.isEntireModule d.symbol &&
        (declaration.ImportSymbol.symbolName d.symbol).isSome) = false ∧
      (declaration.ImportSymbol.isNamedSymbol d.symbol &&
        (declaration.ImportSymbol.symbolName d.symbol).isNone) = false := by
  intro d
  cases d with
  | mk m s => cases s <;> exact ⟨rfl, rfl, rfl, rfl⟩

/-- C5: in every CallExpression the arguments field and the trailing_closures
field are two separate ordered sequences (replacing either leaves the other
untouched, so trailing closures are never stored among arguments), and each
TrailingClosure carries its own optional label. -/
theorem C5_arguments_exclude_trailing_closures :
    (∀ (c : expression.CallExpression) (args : List expression.Argument),
      expression.CallExpression.trailing_closures
          (expression.CallExpression.withArguments c args) =
        expression.CallExpression.trailing_closures c ∧
      expression.CallExpression.arguments
          (expression.CallExpression.withArguments c args) = args) ∧
    (∀ (c : expression.CallExpression) (tcs : List expression.TrailingClosure),
      expression.CallExpression.arguments
          (expression.CallExpression.withTrailingClosures c tcs) =
        expression.CallExpression.arguments c ∧
      expression.CallExpression.trailing_closures
          (expression.CallExpression.withTrailingClosures c tcs) = tcs) ∧
    (∀ tc : expression.TrailingClosure,
      expression.TrailingClosure.label tc = none ∨
      ∃ s : String, expression.TrailingClosure.label tc = some s) := by
  refine ⟨?_, ?_, ?_⟩
  · intro c args; cases c with | mk cal a g t => exact ⟨rfl, rfl⟩
  · intro c tcs; cases c with | mk cal a g t => exact ⟨rfl, rfl⟩
  · intro tc
    cases tc with
    | mk l c =>
      cases l with
      | none => exact Or.inl rfl
      | some s => exact Or.inr ⟨s, rfl⟩

/-- C6: a FunDeclaration whose body is none is a distinct value from an
otherwise identical FunDeclaration whose body is some (empty
StatementSequence): their equality is False, and the hasBody discriminator
tells them apart. -/
theorem C6_body_none_distinct_from_some_empty :
    ∀ (n : String) (g : Option declaration.GenericsDeclaration)
      (p : List declaration.FunctionParameter) (r : Option SwiftType)
      (t : Bool) (a : declaration.AccessControl),
      (declaration.FunDeclaration.mk n g p r t a none =
        declaration.FunDeclaration.mk n g p r t a
          (some (StatementSequence.mk []))) = False ∧
      declaration.FunDeclaration.hasBody (.mk n g p r t a none) = false ∧
      declaration.FunDeclaration.hasBody
        (.mk n g p r t a (some (StatementSequence.mk []))) = true := by
  intro n g p r t a
  refine ⟨?_, rfl, rfl⟩
  simp

theorem exprSize_pos : ∀ e : Expression, 0 < exprSize e := by
  intro e
  cases e with
  | SelfExpression => simp [exprSize]
  | SuperExpression => simp [exprSize]
  | Identifier a => simp [exprSize]
  | Literal a => simp [exprSize]
  | BinaryExpression a => cases a; simp [exprSize]
  | UnaryExpression a => cases a; simp [exprSize]
  | CallExpression a => cases a; simp [exprSize]
  | Closure a => cases a; simp [exprSize]
  | Subscript a => cases a; simp [exprSize]
  | Conditional a => cases a; simp [exprSize]
  | Tuple a => cases a; simp [exprSize]
  | Array a => cases a; simp [exprSize]
  | Dictionary a => cases a; simp [exprSize]
  | MemberAccess a => cases a; simp [exprSize]
  | TypeCasting a => cases a; simp [exprSize]
  | PatternMatch a => cases a; simp [exprSize]
  | KeyPath a => simp [exprSize]
  | Assignment a => cases a; simp [exprSize]

theorem stmtSize_pos : ∀ s : Statement, 0 < stmtSize s := by
  intro s
  cases s with
  | Break a => simp [stmtSize]
  | Continue a => simp [stmtSize]
  | Expression e => simp [stmtSize]
  | Declaration d => simp [stmtSize]
  | Return a => cases a; simp [stmtSize]
  | If a => cases a; simp [stmtSize]
  | ForLoop a => cases a with | mk v r b => cases r; simp [stmtSize]
  | WhileLoop a => cases a; simp [stmtSize]
  | RepeatWhileLoop a => cases a; simp [stmtSize]
  | Switch a => cases a; simp [stmtSize]
  | Guard a => cases a; simp [stmtSize]
  | Throw a => cases a; simp [stmtSize]
  | DoCatch a => cases a; simp [stmtSize]
  | Assignment a => cases a; simp [stmtSize]

theorem swiftTypeSize_pos : ∀ t : SwiftType, 0 < swiftTypeSize t := by
  intro t
  cases t <;> simp [swiftTypeSize]

theorem declSize_pos : ∀ d : Declaration, 0 < declSize d := by
  intro d
  cases d with
  | Function f => simp [declSize]
  | Var a => cases a; simp [declSize]
  | Let a => cases a; simp [declSize]
  | Struct a => cases a; simp [declSize]
  | Enum a => cases a; simp [declSize]
  | Class a => cases a; simp [declSize]
  | Protocol a => simp [declSize]
  | Extension a => cases a; simp [declSize]
  | TypeAlias a => simp [declSize]
  | Import a => simp [declSize]
  | Initializer a => simp [declSize]
  | Deinitializer a => cases a; simp [declSize]

/-- C7: depth-first traversal of every constructed tree terminates: the size
functions defined by recursion over Expression, Statement, SwiftType and
Declaration are total (every tree has a positive finite size), and on the
nested unary tower of depth n the size exceeds n, in particular at depth
10000. -/
theorem C7_traversal_terminates :
    (∀ n : Nat, n < exprSize (nestUnary n)) ∧
    10000 < exprSize (nestUnary 10000) ∧
    (∀ e : Expression, 0 < exprSize e) ∧
    (∀ s : Statement, 0 < stmtSize s) ∧
    (∀ t : SwiftType, 0 < swiftTypeSize t) ∧
    (∀ d : Declaration, 0 < declSize d) := by
  have key : ∀ n : Nat, n < exprSize (nestUnary n) := by
    intro n
    induction n with
    | zero => simp [nestUnary, exprSize]
    | succ k ih => simp [nestUnary, exprSize] at ih ⊢; omega
  exact ⟨key, key 10000, exprSize_pos, stmtSize_pos, swiftTypeSize_pos, declSize_pos⟩

/-- C8: for every ForLoopStatement, the range field is exactly a pair of two
endpoint expressions, and the value consists of nothing more than the loop
variable, the range pair and the body, so no stride or endpoint-openness
component is representable. -/
theorem C8_forloop_range_is_endpoint_pair :
    ∀ f : statement.ForLoopStatement,
      (∃ a b : Expression, statement.ForLoopStatement.range f = (a, b)) ∧
      f = statement.ForLoopStatement.mk (statement.ForLoopStatement.«variable» f)
            (statement.ForLoopStatement.range f)
            (statement.ForLoopStatement.body f) := by
  intro f
  cases f with
  | mk v r b =>
    cases r with
    | mk a bb => exact ⟨⟨a, bb, rfl⟩, rfl⟩

/-- C9: the encoding of an assignment as a statement is not unique: for any
target t and value v, Statement.Assignment of an AssignmentStatement and
Statement.Expression of an Expression.Assignment are two distinct Statement
values, and the two structures carry exactly the same target and value
fields. -/
theorem C9_assignment_has_two_encodings :
    ∀ t v : Expression,
      (Statement.Assignment (statement.AssignmentStatement.mk t v) =
        Statement.Expression (Expression.Assignment
          (expression.AssignmentExpression.mk t v))) = False ∧
      statement.AssignmentStatement.target (statement.AssignmentStatement.mk t v) = t ∧
      statement.AssignmentStatement.value (statement.AssignmentStatement.mk t v) = v ∧
      expression.AssignmentExpression.target
        (expression.AssignmentExpression.mk t v) = t ∧
      expression.AssignmentExpression.value
        (expression.AssignmentExpression.mk t v) = v := by
  intro t v
  exact ⟨by simp, rfl, rfl, rfl, rfl⟩

/-- C10: among all declaration shapes only FunDeclaration and
InitializerDeclaration carry an access_control field (always one of the four
AccessControl levels); Var, Let, Struct, Enum, Class, Protocol, Extension,
TypeAlias, Import (and Deinitializer) declarations consist entirely of their
listed fields, none of which is an access-control datum. -/
theorem C10_access_control_only_on_fun_and_init :
    (∀ d : declaration.VarDeclaration,
      d = declaration.VarDeclaration.mk (declaration.VarDeclaration.name d)
            (declaration.VarDeclaration.ty d)
            (declaration.VarDeclaration.initial_value d)) ∧
    (∀ d : declaration.LetDeclaration,
      d = declaration.LetDeclaration.mk (declaration.LetDeclaration.name d)
            (declaration.LetDeclaration.ty d)
            (declaration.LetDeclaration.initial_value d)) ∧
    (∀ d : declaration.StructDeclaration,
      d = declaration.StructDeclaration.mk (declaration.StructDeclaration.name d)
            (declaration.StructDeclaration.generics d)
            (declaration.StructDeclaration.conformances d)
            (declaration.StructDeclaration.properties d)
            (declaration.StructDeclaration.methods d)
            (declaration.StructDeclaration.initializers d)) ∧
    (∀ d : declaration.EnumDeclaration,
      d = declaration.EnumDeclaration.mk (declaration.EnumDeclaration.name d)
            (declaration.EnumDeclaration.generics d)
            (declaration.EnumDeclaration.cases d)
            (declaration.EnumDeclaration.raw_type d)) ∧
    (∀ d : declaration.ClassDeclaration,
      d = declaration.ClassDeclaration.mk (declaration.ClassDeclaration.name d)
            (declaration.ClassDeclaration.generics d)
            (declaration.ClassDeclaration.superclass d)
            (declaration.ClassDeclaration.conformances d)
            (declaration.ClassDeclaration.properties d)
            (declaration.ClassDeclaration.methods d)
            (declaration.ClassDeclaration.initializers d)
            (declaration.ClassDeclaration.deinitializer d)) ∧
    (∀ d : declaration.ProtocolDeclaration,
      d = declaration.ProtocolDeclaration.mk d.name d.inherited_protocols
            d.property_requirements d.method_requirements
            d.initializer_requirements) ∧
    (∀ d : declaration.ExtensionDeclaration,
      d = declaration.ExtensionDeclaration.mk
            (declaration.ExtensionDeclaration.type_name d)
            (declaration.ExtensionDeclaration.conformances d)
            (declaration.ExtensionDeclaration.properties d)
            (declaration.ExtensionDeclaration.methods d)
            (declaration.ExtensionDeclaration.initializers d)) ∧
    (∀ d : declaration.TypeAliasDeclaration,
      d = declaration.TypeAliasDeclaration.mk d.name d.target) ∧
    (∀ d : declaration.ImportDeclaration,
      d = declaration.ImportDeclaration.mk d.module d.symbol) ∧
    (∀ d : declaration.DeinitializerDeclaration,
      d = declaration.DeinitializerDeclaration.mk
            (declaration.DeinitializerDeclaration.body d)) ∧
    (∀ d : declaration.FunDeclaration,
      declaration.FunDeclaration.access_control d = .Public ∨
      declaration.FunDeclaration.access_control d = .Internal ∨
      declaration.FunDeclaration.access_control d = .FilePrivate ∨
      declaration.FunDeclaration.access_control d = .Private) ∧
    (∀ d : declaration.InitializerDeclaration,
      declaration.InitializerDeclaration.access_control d = .Public ∨
      declaration.InitializerDeclaration.access_control d = .Internal ∨
      declaration.InitializerDeclaration.access_control d = .FilePrivate ∨
      declaration.InitializerDeclaration.access_control d = .Private) := by
  refine ⟨?_, ?_, ?_, ?_, ?_, ?_, ?_, ?_, ?_, ?_, ?_, ?_⟩
  · intro d; cases d; rfl
  · intro d; cases d; rfl
  · intro d; cases d; rfl
  · intro d; cases d; rfl
  · intro d; cases d; rfl
  · intro d; cases d; rfl
  · intro d; cases d; rfl
  · intro d; cases d; rfl
  · intro d; cases d; rfl
  · intro d; cases d; rfl
  · intro d
    cases d with
    | mk n g p r t a b => cases a
      <;> first
        | exact Or.inl rfl
        | exact Or.inr (Or.inl rfl)
        | exact Or.inr (Or.inr (Or.inl rfl))
        | exact Or.inr (Or.inr (Or.inr rfl))
  · intro d
    cases d with
    | mk g p b f c a => cases a
      <;> first
        | exact Or.inl rfl
        | exact Or.inr (Or.inl rfl)
        | exact Or.inr (Or.inr (Or.inl rfl))
        | exact Or.inr (Or.inr (Or.inr rfl))
